import Mathlib

/-!
Verification of the MySQL-to-ClickHouse row migrator (`main.py` of the
`clickhouse_mysql_map-b` tool) against its natural-language specification.

The Python source is shallowly embedded: Python `str` values are modelled as
lists of Unicode code points (`PyStr := List Nat`), which — unlike Lean's
`Char` — can represent lone surrogates, so that the `encode('utf-8')`
fail-safe check in `_clean_string_value` is expressible.  Database and driver
effects (query results, DDL/insert outcomes) are modelled as explicit
`Except`-valued inputs to the embedded functions, and the statements the
orchestrator issues against the target store are recorded as an explicit
`Action` trace.
-/

/-- Python strings as lists of Unicode code points (0 .. 0x10FFFF, lone
surrogates included, matching CPython's `str`). -/
abbrev PyStr : Type := List Nat

/-- Convert a Lean string literal to its code-point list; used to write the
concrete Python string constants of the source. -/
def pstr (s : String) : PyStr := s.data.map Char.toNat

/-- Code points of the ASCII lowercase letters. -/
def isLowerC (c : Nat) : Bool := 97 ≤ c && c ≤ 122

/-- Code points of the ASCII uppercase letters. -/
def isUpperC (c : Nat) : Bool := 65 ≤ c && c ≤ 90

/-- Code points of the ASCII digits. -/
def isDigitC (c : Nat) : Bool := 48 ≤ c && c ≤ 57

/-- Python `str.upper` restricted to ASCII (the type-name strings this tool
uppercases are ASCII, where CPython's Unicode uppercasing agrees). -/
def upperP (s : PyStr) : PyStr := s.map (fun c => if isLowerC c then c - 32 else c)

/-- Python `str.lower` restricted to ASCII (used on target type names and on
the boolean literals `true/1/yes/on`, all ASCII). -/
def lowerP (s : PyStr) : PyStr := s.map (fun c => if isUpperC c then c + 32 else c)

/-- The code points Python's default `str.strip` removes (ASCII whitespace;
the strings being stripped here are ASCII type names and numeric literals). -/
def isSpaceC (c : Nat) : Bool := c = 32 || c = 9 || c = 10 || c = 13 || c = 11 || c = 12

/-- Python `str.strip()` with no argument. -/
def stripP (s : PyStr) : PyStr :=
  ((s.dropWhile isSpaceC).reverse.dropWhile isSpaceC).reverse

/-- Python's substring test `pat in s`. -/
def hasSub (s pat : PyStr) : Bool := decide (pat <:+: s)

/-- The `TYPE_MAPPING` dictionary of `TypeMapper` (source lines 129-170). -/
def TYPE_MAPPING : List (PyStr × PyStr) :=
  [ (pstr "TINYINT", pstr "Int8"),
    (pstr "TINYINT UNSIGNED", pstr "UInt8"),
    (pstr "SMALLINT", pstr "Int16"),
    (pstr "SMALLINT UNSIGNED", pstr "UInt16"),
    (pstr "MEDIUMINT", pstr "Int32"),
    (pstr "MEDIUMINT UNSIGNED", pstr "UInt32"),
    (pstr "INT", pstr "Int32"),
    (pstr "INTEGER", pstr "Int32"),
    (pstr "INT UNSIGNED", pstr "UInt32"),
    (pstr "INTEGER UNSIGNED", pstr "UInt32"),
    (pstr "BIGINT", pstr "Int64"),
    (pstr "BIGINT UNSIGNED", pstr "UInt64"),
    (pstr "YEAR", pstr "Int16"),
    (pstr "FLOAT", pstr "Float32"),
    (pstr "DOUBLE", pstr "Float64"),
    (pstr "DECIMAL", pstr "Decimal"),
    (pstr "CHAR", pstr "String"),
    (pstr "VARCHAR", pstr "String"),
    (pstr "TINYTEXT", pstr "String"),
    (pstr "TEXT", pstr "String"),
    (pstr "MEDIUMTEXT", pstr "String"),
    (pstr "LONGTEXT", pstr "String"),
    (pstr "BINARY", pstr "String"),
    (pstr "VARBINARY", pstr "String"),
    (pstr "TINYBLOB", pstr "String"),
    (pstr "BLOB", pstr "String"),
    (pstr "MEDIUMBLOB", pstr "String"),
    (pstr "LONGBLOB", pstr "String"),
    (pstr "DATE", pstr "Date32"),
    (pstr "TIME", pstr "DateTime64(6)"),
    (pstr "DATETIME", pstr "DateTime64(6)"),
    (pstr "TIMESTAMP", pstr "DateTime64(6)"),
    (pstr "ENUM", pstr "LowCardinality(String)"),
    (pstr "SET", pstr "String"),
    (pstr "JSON", pstr "String"),
    (pstr "GEOMETRY", pstr "String"),
    (pstr "POINT", pstr "String"),
    (pstr "LINESTRING", pstr "String"),
    (pstr "POLYGON", pstr "String"),
    (pstr "VECTOR", pstr "Array(Float32)") ]

/-- `TypeMapper.map_mysql_type_to_clickhouse` (source lines 172-187):
`base_type = mysql_type.upper().split('(')[0].strip()`; the `TINYINT(1)`
special case is tested with `startswith` on the uppercased input before the
parameter stripping is consulted; a parameterized `DECIMAL` keeps the text
between the first `(` and the first following `)` verbatim; anything else is
looked up in `TYPE_MAPPING` with `String` as default. -/
def map_mysql_type_to_clickhouse (mysql_type : PyStr) : PyStr :=
  let base_type : PyStr := stripP ((upperP mysql_type).takeWhile (fun c => c ≠ 40))
  if (pstr "TINYINT(1)").isPrefixOf (upperP mysql_type) then pstr "Bool"
  else if base_type = pstr "DECIMAL" && mysql_type.contains 40 then
    pstr "Decimal(" ++ (((mysql_type.dropWhile (fun c => c ≠ 40)).drop 1).takeWhile (fun c => c ≠ 41)) ++ pstr ")"
  else ((TYPE_MAPPING.lookup base_type).getD (pstr "String"))

/-- Python `datetime.date` values (as produced and consumed by the tool). -/
structure PyDate where
  year : Nat
  month : Nat
  day : Nat
deriving DecidableEq, Repr

/-- Python `datetime.datetime` values. -/
structure PyDateTime where
  year : Nat
  month : Nat
  day : Nat
  hour : Nat
  minute : Nat
  second : Nat
  microsecond : Nat
deriving DecidableEq, Repr

/-- Python `float` values: a finite value (modelled exactly as a rational —
every finite value this pipeline produces parses from a decimal literal), a
signed infinity, or NaN. -/
inductive PyFloat where
  | finite (q : ℚ)
  | inf (neg : Bool)
  | nan
deriving DecidableEq, Repr

/-- Native values read from MySQL rows and wire values sent to ClickHouse.
`PyVal.none` is Python's `None`.  Note that in Python `bool` is a subclass of
`int`; the embedding keeps them separate and the conversion branches below
handle `bool` wherever the source's `isinstance(value, (int, float))` would
accept it. -/
inductive PyVal where
  | none
  | bool (b : Bool)
  | int (n : Int)
  | float (x : PyFloat)
  | str (s : PyStr)
  | date (d : PyDate)
  | datetime (dt : PyDateTime)
deriving DecidableEq, Repr

/-- Python `int(x)` on a float: truncation toward zero. -/
def pyTrunc (q : ℚ) : Int := if 0 ≤ q then ⌊q⌋ else ⌈q⌉

/-- Decimal value of a digit run (most significant first). -/
def digitsVal (ds : PyStr) : Nat := ds.foldl (fun a c => a * 10 + (c - 48)) 0

/-- Scan for CPython's digit-group-underscore rule, given the character
preceding the rest of the input: every `_` must be immediately preceded and
followed by a digit. -/
def underscoresOkAux (prev : Nat) : PyStr → Bool
  | [] => true
  | c :: rest =>
    if c = 95 then
      isDigitC prev && (match rest with | d :: _ => isDigitC d | [] => false)
        && underscoresOkAux c rest
    else underscoresOkAux c rest

/-- CPython's underscore rule for numeric literals accepted by `float()`
(PEP 515): underscores are allowed only between two digits.  A leading
underscore is always invalid. -/
def underscoresOk (s : PyStr) : Bool :=
  match s with
  | [] => true
  | c :: rest => (c ≠ 95) && underscoresOkAux c rest

/-- Python `float(s)` on a string: optional surrounding whitespace, optional
sign, then the case-insensitive spellings `inf`/`infinity`/`nan` or a
decimal literal — a digit run with an optional fractional part (at least one
digit overall) and an optional decimal exponent, with digit-group
underscores allowed between digits (PEP 515; validated first, then removed
before reading the grammar, which is equivalent since a valid underscore
always sits inside a digit run). -/
def pyParseFloat (s0 : PyStr) : Option PyFloat :=
  let t := stripP s0
  if ¬ underscoresOk t then Option.none
  else
    let s := t.filter (fun c => c ≠ 95)
    let sgn : Bool × PyStr :=
      match s with
      | 43 :: r => (false, r)
      | 45 :: r => (true, r)
      | r => (false, r)
    if lowerP sgn.2 = pstr "inf" ∨ lowerP sgn.2 = pstr "infinity" then
      Option.some (PyFloat.inf sgn.1)
    else if lowerP sgn.2 = pstr "nan" then Option.some PyFloat.nan
    else
      let sq : ℚ := if sgn.1 then -1 else 1
      let ip := sgn.2.takeWhile isDigitC
      let r1 := sgn.2.dropWhile isDigitC
      let fp : PyStr × PyStr :=
        match r1 with
        | 46 :: r => (r.takeWhile isDigitC, r.dropWhile isDigitC)
        | r => ([], r)
      if ip.length + fp.1.length = 0 then Option.none
      else
        let mant : ℚ := ((digitsVal (ip ++ fp.1) : Int) : ℚ) / ((10 : ℚ) ^ fp.1.length)
        match fp.2 with
        | [] => Option.some (PyFloat.finite (sq * mant))
        | e :: r2 =>
          if e = 101 ∨ e = 69 then
            let esgn : Int × PyStr :=
              match r2 with
              | 43 :: r => (1, r)
              | 45 :: r => (-1, r)
              | r => (1, r)
            let ed := esgn.2.takeWhile isDigitC
            if ed.length = 0 ∨ (esgn.2.dropWhile isDigitC) ≠ [] then Option.none
            else Option.some (PyFloat.finite (sq * mant * (10 : ℚ) ^ (esgn.1 * digitsVal ed)))
          else Option.none

/-- Gregorian leap-year test (as validated by `datetime`'s constructor). -/
def isLeapYear (y : Nat) : Bool := (y % 4 = 0 && y % 100 ≠ 0) || y % 400 = 0

/-- Days in a month, as validated by `datetime`'s constructor. -/
def daysInMonth (y m : Nat) : Nat :=
  if m = 2 then (if isLeapYear y then 29 else 28)
  else if m = 4 ∨ m = 6 ∨ m = 9 ∨ m = 11 then 30 else 31

/-- The range checks `datetime.datetime(y, m, d, ...)` performs (a failing
check raises `ValueError`, which the source's per-format `except ValueError:
continue` turns into trying the next format). -/
def validYmd (y m d : Nat) : Bool :=
  1 ≤ y && y ≤ 9999 && 1 ≤ m && m ≤ 12 && 1 ≤ d && d ≤ daysInMonth y m

/-- Read one numeric `strptime` field as a digit run of length between `lo`
and `hi`, returning its value and the rest of the input.  CPython compiles
`%Y` to exactly 4 digits and `%m`/`%d`/`%H`/`%M`/`%S` to ordered 1-2-digit
alternations; because in the formats used here every numeric field is
followed by a non-digit (separator or end of input), the regex alternation
accepts exactly the full digit run within the length bound and the
per-field value bound checked by the caller, so this deterministic model
coincides with it. -/
def parseNumField (lo hi : Nat) (s : PyStr) : Option (Nat × PyStr) :=
  let ds := s.takeWhile isDigitC
  if lo ≤ ds.length && ds.length ≤ hi then Option.some (digitsVal ds, s.dropWhile isDigitC)
  else Option.none

/-- Require a literal code point at the head of the input. -/
def expectC (c : Nat) : PyStr → Option PyStr
  | x :: r => if x = c then Option.some r else Option.none
  | [] => Option.none

/-- A literal whitespace character in a `strptime` format: CPython compiles
it to the regex `\s+`, so it consumes one or more whitespace characters of
the input. -/
def expectWs : PyStr → Option PyStr
  | c :: r => if isSpaceC c then Option.some (r.dropWhile isSpaceC) else Option.none
  | [] => Option.none

/-- The `%d` field: CPython's pattern `3[0-1]|[1-2]\d|0[1-9]|[1-9]| [1-9]`
— a 1-2-digit day or a space-padded single nonzero digit.  Calendar-range
validation happens in the `datetime` constructor, modelled by the caller's
`validYmd`. -/
def parseDayField (s : PyStr) : Option (Nat × PyStr) :=
  match s with
  | 32 :: c :: r => if isDigitC c && c ≠ 48 then Option.some (c - 48, r) else Option.none
  | _ => parseNumField 1 2 s

/-- The `%Y-%m-%d` fragment of a `strptime` format: `%Y` is exactly 4
digits, `%m` 1-2 digits, `%d` as in `parseDayField`. -/
def parseDateFrag (s : PyStr) : Option (Nat × Nat × Nat × PyStr) := do
  let (y, r1) ← parseNumField 4 4 s
  let r2 ← expectC 45 r1
  let (m, r3) ← parseNumField 1 2 r2
  let r4 ← expectC 45 r3
  let (d, r5) ← parseDayField r4
  if validYmd y m d then Option.some (y, m, d, r5) else Option.none

/-- The `%H:%M:%S` fragment of a `strptime` format (with the `datetime`
constructor's range checks). -/
def parseTimeFrag (s : PyStr) : Option (Nat × Nat × Nat × PyStr) := do
  let (h, r1) ← parseNumField 1 2 s
  let r2 ← expectC 58 r1
  let (mi, r3) ← parseNumField 1 2 r2
  let r4 ← expectC 58 r3
  let (se, r5) ← parseNumField 1 2 r4
  if h ≤ 23 && mi ≤ 59 && se ≤ 59 then Option.some (h, mi, se, r5) else Option.none

/-- `datetime.strptime(s, '%Y-%m-%d %H:%M:%S')` (the format's literal space
matches `\s+`; the whole string must match). -/
def strpYmdHms (s : PyStr) : Option PyDateTime := do
  let (y, m, d, r) ← parseDateFrag s
  let r1 ← expectWs r
  let (h, mi, se, r2) ← parseTimeFrag r1
  if r2 = ([] : PyStr) then Option.some ⟨y, m, d, h, mi, se, 0⟩ else Option.none

/-- `datetime.strptime(s, '%Y-%m-%d %H:%M:%S.%f')`: `%f` is 1-6 digits,
right-padded to microseconds. -/
def strpYmdHmsF (s : PyStr) : Option PyDateTime := do
  let (y, m, d, r) ← parseDateFrag s
  let r1 ← expectWs r
  let (h, mi, se, r2) ← parseTimeFrag r1
  let r3 ← expectC 46 r2
  let (_, r4) ← parseNumField 1 6 r3
  let fd := r3.takeWhile isDigitC
  if r4 = ([] : PyStr) then
    Option.some ⟨y, m, d, h, mi, se, digitsVal fd * 10 ^ (6 - fd.length)⟩
  else Option.none

/-- `datetime.strptime(s, '%Y-%m-%d')`, giving a midnight datetime. -/
def strpYmd (s : PyStr) : Option PyDateTime := do
  let (y, m, d, r) ← parseDateFrag s
  if r = ([] : PyStr) then Option.some ⟨y, m, d, 0, 0, 0, 0⟩ else Option.none

/-- The datetime-target format loop of `_convert_value_for_clickhouse`
(source lines 417-422): formats `'%Y-%m-%d %H:%M:%S'`,
`'%Y-%m-%d %H:%M:%S.%f'`, `'%Y-%m-%d'`, first match wins. -/
def parseDateTimeFormats (s : PyStr) : Option PyDateTime :=
  match strpYmdHms s with
  | Option.some dt => Option.some dt
  | Option.none =>
    match strpYmdHmsF s with
    | Option.some dt => Option.some dt
    | Option.none => strpYmd s

/-- The date-target format loop (source lines 440-444): formats
`'%Y-%m-%d'`, `'%Y-%m-%d %H:%M:%S'`, first match wins, then `.date()`. -/
def parseDateFormats (s : PyStr) : Option PyDate :=
  match strpYmd s with
  | Option.some dt => Option.some ⟨dt.year, dt.month, dt.day⟩
  | Option.none =>
    match strpYmdHms s with
    | Option.some dt => Option.some ⟨dt.year, dt.month, dt.day⟩
    | Option.none => Option.none

/-- The control code points removed by the explicit `replace` chain of
`_clean_string_value` (source lines 517-526): `\x00`-`\x08`, `\x0b`, `\x0c`,
`\x0e`-`\x1f`.  All of them are below 32 and none is tab/newline/carriage
return, so after the preceding filter the chain is a no-op; it is embedded
anyway for faithfulness. -/
def replacedCtl : List Nat := [0,1,2,3,4,5,6,7,8,0x0b,0x0c,0x0e,0x0f,0x10,0x11,0x12,0x13,0x14,0x15,0x16,0x17,0x18,0x19,0x1a,0x1b,0x1c,0x1d,0x1e,0x1f]

/-- Whether a code-point string encodes cleanly as UTF-8: CPython's
`str.encode('utf-8')` raises `UnicodeEncodeError` exactly on lone surrogates
(code points 0xD800-0xDFFF). -/
def utf8Encodable (s : PyStr) : Bool := s.all (fun c => ¬ (0xD800 ≤ c && c ≤ 0xDFFF))

/-- `ClickHouseClientV3._clean_string_value` (source lines 507-539): empty
input short-circuits to `''`; otherwise keep only code points that are ≥ 32
or tab/newline/carriage return, run the (no-op) `replace` chain, fail safe to
`''` when the result does not re-encode as UTF-8 (the `cleaned.encode('utf-8')`
probe raising inside the `try` block), and finally truncate to 1000
characters. -/
def clean_string_value (value : PyStr) : PyStr :=
  if value = ([] : PyStr) then []
  else
    let cleaned := value.filter (fun c => 32 ≤ c || c = 9 || c = 10 || c = 13)
    let cleaned := cleaned.filter (fun c => ¬ c ∈ replacedCtl)
    if ¬ utf8Encodable cleaned then []
    else if 1000 < cleaned.length then cleaned.take 1000 else cleaned

/-- `ClickHouseClientV3._get_default_value_for_type` (source lines 380-398).
Note the `decimal` branch returns the Python integer `0`, not the float
`0.0`. -/
def get_default_value_for_type (field_type : PyStr) : PyVal :=
  let ftl := lowerP field_type
  if hasSub ftl (pstr "int") || hasSub ftl (pstr "uint") then PyVal.int 0
  else if hasSub ftl (pstr "float") || hasSub ftl (pstr "double") then PyVal.float (PyFloat.finite 0)
  else if hasSub ftl (pstr "decimal") then PyVal.int 0
  else if ftl = pstr "date32" then PyVal.date ⟨2000, 1, 1⟩
  else if hasSub ftl (pstr "datetime") then PyVal.datetime ⟨2000, 1, 1, 0, 0, 0, 0⟩
  else if ftl = pstr "bool" then PyVal.bool false
  else PyVal.str []

/-- Python `str(value)` for the non-string values this pipeline can carry,
used only in the string-target fallthrough (source line 501).  The float
rendering is schematic (CPython's shortest-roundtrip float repr is not
modelled); no claim in this development depends on it. -/
def pyStrOf (v : PyVal) : PyStr :=
  match v with
  | PyVal.none => pstr "None"
  | PyVal.bool b => if b then pstr "True" else pstr "False"
  | PyVal.int n => (if n < 0 then [45] else []) ++ ((Nat.toDigits 10 n.natAbs).map Char.toNat)
  | PyVal.float (PyFloat.finite q) => (if q < 0 then [45] else []) ++ ((Nat.toDigits 10 q.num.natAbs).map Char.toNat) ++ [47] ++ ((Nat.toDigits 10 q.den).map Char.toNat)
  | PyVal.float (PyFloat.inf neg) => if neg then pstr "-inf" else pstr "inf"
  | PyVal.float PyFloat.nan => pstr "nan"
  | PyVal.str s => s
  | PyVal.date d => (Nat.toDigits 10 d.year).map Char.toNat ++ [45] ++ (Nat.toDigits 10 d.month).map Char.toNat ++ [45] ++ (Nat.toDigits 10 d.day).map Char.toNat
  | PyVal.datetime dt => (Nat.toDigits 10 dt.year).map Char.toNat ++ [45] ++ (Nat.toDigits 10 dt.month).map Char.toNat ++ [45] ++ (Nat.toDigits 10 dt.day).map Char.toNat ++ [32] ++ (Nat.toDigits 10 dt.hour).map Char.toNat ++ [58] ++ (Nat.toDigits 10 dt.minute).map Char.toNat ++ [58] ++ (Nat.toDigits 10 dt.second).map Char.toNat

/-- `ClickHouseClientV3._convert_value_for_clickhouse` (source lines
400-505).  Branches in source order: `None` short-circuit; datetime/timestamp
targets (`hasattr(value, 'strftime')` holds for both `date` and `datetime`
values, so both pass through unchanged); `Date32` targets
(`hasattr(value, 'date')` holds only for `datetime` values — a plain `date`
value falls to the final `else` and is replaced by the sentinel, faithfully
to the source); integer targets (`bool` counts as numeric in Python); float/
double/decimal targets; `Bool` targets; and the string fallthrough with
`_clean_string_value`.  The only reachable raising operations are `int()` of
a non-finite float in the integer branch — `OverflowError` for an infinity,
caught by the outer handler which returns the type default (the integer
`0`), and `ValueError` for NaN, caught by the inner handler which also
returns `0` — so both are embedded directly as `PyVal.int 0` and the
function is total. -/
def convert_value_for_clickhouse (value : PyVal) (field_type : PyStr) : PyVal :=
  match value with
  | PyVal.none => get_default_value_for_type field_type
  | v =>
    let ftl := lowerP field_type
    if hasSub ftl (pstr "datetime") || hasSub ftl (pstr "timestamp") then
      match v with
      | PyVal.date d => PyVal.date d
      | PyVal.datetime dt => PyVal.datetime dt
      | PyVal.str s =>
        (match parseDateTimeFormats s with
         | Option.some dt => PyVal.datetime dt
         | Option.none => PyVal.datetime ⟨2000, 1, 1, 0, 0, 0, 0⟩)
      | _ => PyVal.datetime ⟨2000, 1, 1, 0, 0, 0, 0⟩
    else if ftl = pstr "date32" then
      match v with
      | PyVal.datetime dt => PyVal.date ⟨dt.year, dt.month, dt.day⟩
      | PyVal.str s =>
        (match parseDateFormats s with
         | Option.some d => PyVal.date d
         | Option.none => PyVal.date ⟨2000, 1, 1⟩)
      | _ => PyVal.date ⟨2000, 1, 1⟩
    else if hasSub ftl (pstr "int") || hasSub ftl (pstr "uint") then
      match v with
      | PyVal.bool b => PyVal.int (if b then 1 else 0)
      | PyVal.int n => PyVal.int n
      | PyVal.float (PyFloat.finite q) => PyVal.int (pyTrunc q)
      | PyVal.float _ => PyVal.int 0
      | PyVal.str s =>
        if stripP s ≠ ([] : PyStr) then
          (match pyParseFloat s with
           | Option.some (PyFloat.finite q) => PyVal.int (pyTrunc q)
           | Option.some _ => PyVal.int 0
           | Option.none => PyVal.int 0)
        else PyVal.int 0
      | _ => PyVal.int 0
    else if hasSub ftl (pstr "float") || hasSub ftl (pstr "double") || hasSub ftl (pstr "decimal") then
      match v with
      | PyVal.bool b => PyVal.float (PyFloat.finite (if b then 1 else 0))
      | PyVal.int n => PyVal.float (PyFloat.finite n)
      | PyVal.float x => PyVal.float x
      | PyVal.str s =>
        if stripP s ≠ ([] : PyStr) then
          (match pyParseFloat s with
           | Option.some x => PyVal.float x
           | Option.none => PyVal.float (PyFloat.finite 0))
        else PyVal.float (PyFloat.finite 0)
      | _ => PyVal.float (PyFloat.finite 0)
    else if ftl = pstr "bool" then
      match v with
      | PyVal.bool b => PyVal.bool b
      | PyVal.int n => PyVal.bool (n ≠ 0)
      | PyVal.float (PyFloat.finite q) => PyVal.bool (q ≠ 0)
      | PyVal.float _ => PyVal.bool true
      | PyVal.str s => PyVal.bool (lowerP s ∈ [pstr "true", pstr "1", pstr "yes", pstr "on"])
      | _ => PyVal.bool false
    else
      match v with
      | PyVal.str s => PyVal.str (clean_string_value s)
      | w => PyVal.str (pyStrOf w)

/-- `MySQLClient.get_table_row_count` (source lines 110-118): the
`SELECT COUNT(*)` outcome is the explicit input; on success the count is
returned, on any exception the handler prints a warning and returns `0`. -/
def mysql_get_table_row_count (queryResult : Except PyStr Nat) : Nat :=
  match queryResult with
  | Except.ok n => n
  | Except.error _ => 0

/-- `ClickHouseClientV3.get_table_row_count` (source lines 541-548): same
shape — `0` on any query failure. -/
def clickhouse_get_table_row_count (queryResult : Except PyStr Nat) : Nat :=
  match queryResult with
  | Except.ok n => n
  | Except.error _ => 0

/-- One statement issued against the ClickHouse store, recorded so that
theorems can speak about which DDL/DML the orchestrator actually performs. -/
inductive MigAction where
  | dropTable (t : PyStr)
  | createTable (t : PyStr) (sql : PyStr)
  | insertBatchStmt (t : PyStr) (rows : List (List PyVal))
  | insertRowStmt (t : PyStr) (row : List PyVal)
deriving DecidableEq, Repr

/-- A field of the generated ClickHouse table: `(name, (type, comment))`. -/
abbrev ChField : Type := PyStr × PyStr × PyStr

/-- The field-definition string for one field in `create_table` (source
lines 255-259). -/
def field_def_sql (x : ChField) : PyStr :=
  if x.2.2 ≠ ([] : PyStr) then
    pstr "\x60" ++ x.1 ++ pstr "\x60 " ++ x.2.1 ++ pstr " COMMENT \x27" ++ x.2.2 ++ pstr "\x27"
  else
    pstr "\x60" ++ x.1 ++ pstr "\x60 " ++ x.2.1

/-- Python `','.join`-style interposition of a separator. -/
def joinSep (sep : PyStr) : List PyStr → PyStr
  | [] => []
  | [x] => x
  | x :: y :: xs => x ++ sep ++ joinSep sep (y :: xs)

/-- The primary-key selection loop of `create_table` (source lines 255-263):
`primary_key_field` is set to the first field's name and never overwritten. -/
def primary_key_field (fields : List ChField) : Option PyStr :=
  fields.foldl (fun acc x => match acc with
    | Option.none => Option.some x.1
    | Option.some p => Option.some p) Option.none

/-- `ClickHouseClientV3.create_table` (source lines 248-286).  The DDL
execution outcome (`self.client.execute(create_sql)`) is the explicit `ddl`
input; it is only consulted after the zero-field check, so with no fields no
create statement is issued.  Both the zero-field `raise` and a rejected DDL
are wrapped by the method's handler into `创建表失败: ...`.  On success the
generated `CREATE TABLE` text is returned as the observable. -/
def create_table (table_name : PyStr) (fields : List ChField) (table_comment : PyStr) (ddl : Except PyStr Unit) : Except PyStr PyStr :=
  match primary_key_field fields with
  | Option.none => Except.error (pstr "创建表失败: 表必须至少包含一个字段")
  | Option.some pk =>
    let fields_sql := joinSep (pstr ",\n    ") (fields.map field_def_sql)
    let table_comment_sql :=
      if table_comment ≠ ([] : PyStr) then pstr "COMMENT \x27" ++ table_comment ++ pstr "\x27" else ([] : PyStr)
    let create_sql := pstr "\n            CREATE TABLE \x60" ++ table_name ++
      pstr "\x60 (\n                " ++ fields_sql ++
      pstr "\n            ) ENGINE = MergeTree()\n            ORDER BY \x60" ++ pk ++
      pstr "\x60\n            " ++ table_comment_sql ++ pstr "\n            "
    match ddl with
    | Except.error e => Except.error (pstr "创建表失败: " ++ e)
    | Except.ok _ => Except.ok create_sql

/-- Driver responses for one batch: the bulk `INSERT` outcome and, for the
diagnostic path, the outcome of individually inserting the `i`-th processed
row of the batch. -/
structure InsertOracle where
  bulk : Except PyStr Unit
  row : Nat → Except PyStr Unit

/-- The per-cell processing loop of `insert_batch` (source lines 296-323):
for column `j`, the declared ClickHouse type (default `String` past the end
of the type list) selects either the NULL default or the converted value. -/
def process_row (field_types : List PyStr) (row : List PyVal) : List PyVal :=
  row.enum.map (fun p =>
    let ft := field_types.getD p.1 (pstr "String")
    match p.2 with
    | PyVal.none => get_default_value_for_type ft
    | v => convert_value_for_clickhouse v ft)

/-- The diagnostic single-row retry loop of `insert_batch` (source lines
346-367), started on the first 5 processed rows: each row is actually
inserted; the loop `break`s at the first row whose individual insert fails.
Returns the rows that were successfully inserted (and therefore persist in
the target). -/
def diag_rows (oracle : InsertOracle) : List (List PyVal) → Nat → List (List PyVal)
  | [], _ => []
  | r :: rest, i =>
    match oracle.row i with
    | Except.ok _ => r :: diag_rows oracle rest (i + 1)
    | Except.error _ => []

/-- `ClickHouseClientV3.insert_batch` (source lines 288-378).  All rows are
processed first; then the bulk insert is attempted.  On bulk failure the
diagnostic loop really inserts up to the first 5 processed rows one at a
time, and then the method raises; the inner
`raise Exception(f"批量插入数据失败: {insert_error}")` is caught by the outer
handler and re-wrapped, doubling the prefix.  Returns the outcome together
with the statements performed against the target. -/
def insert_batch (table_name : PyStr) (field_names : List PyStr) (data_batch : List (List PyVal)) (field_types : List PyStr) (oracle : InsertOracle) : Except PyStr Unit × List MigAction :=
  let _ := field_names
  let processed := data_batch.map (process_row field_types)
  match oracle.bulk with
  | Except.ok _ => (Except.ok (), [MigAction.insertBatchStmt table_name processed])
  | Except.error e =>
    let persisted := diag_rows oracle (processed.take 5) 0
    (Except.error (pstr "批量插入数据失败: " ++ (pstr "批量插入数据失败: " ++ e)),
     persisted.map (MigAction.insertRowStmt table_name))

/-- The rows individually written to the target according to an action
trace. -/
def inserted_rows (acts : List MigAction) : List (List PyVal) :=
  acts.filterMap (fun a => match a with
    | MigAction.insertRowStmt _ r => Option.some r
    | _ => Option.none)

/-- `TableMapping` (source lines 22-27): `field_mappings` is the insertion-
ordered dict `{mysql_field: (clickhouse_field, clickhouse_type)}`, modelled
as an association list with unique keys. -/
structure TableMapping where
  mysql_table : PyStr
  clickhouse_table : PyStr
  field_mappings : List (PyStr × PyStr × PyStr)
deriving DecidableEq, Repr

/-- `MigrationResult` (source lines 30-38).  The wall-clock
`processing_time` field is not modelled (real time is outside the
embedding); no claim depends on it. -/
structure MigrationResult where
  table_mapping : Option TableMapping
  success : Bool
  mysql_rows : Nat
  clickhouse_rows : Nat
  error_message : PyStr
deriving DecidableEq, Repr

/-- The external-world responses consumed by one `migrate_table` run.  Each
field models the outcome of one call the orchestrator makes; error payloads
carry the message of the exception as the corresponding callee raises it
(`load_csv_mapping` and `get_table_structure` wrap lower-level errors into
`加载CSV映射文件失败 ...`/`获取表结构失败: ...` themselves, and
`get_table_data` into `读取表数据失败: ...`).  `table_exists` and the two
row-count queries never raise in the source (they degrade to `False`/`0`),
so they are modelled accordingly. -/
structure TableEnv where
  load_mapping : Except PyStr TableMapping
  mysql_count_query : Except PyStr Nat
  ch_exists : Bool
  skip_existing : Bool
  auto_recreate : Bool
  mysql_structure : Except PyStr (List (PyStr × PyStr × PyStr))
  table_comment : PyStr
  create_ddl : Except PyStr Unit
  batches : Except PyStr (List (List (List PyVal)))
  insert_oracle : Nat → InsertOracle
  ch_count_query : Except PyStr Nat

/-- The field-definition loop of `migrate_table` (source lines 659-665):
walk the MySQL structure in column order and keep only mapped fields,
renaming them and mapping their types. -/
def build_clickhouse_fields (structure0 : List (PyStr × PyStr × PyStr)) (fm : List (PyStr × PyStr × PyStr)) : List ChField :=
  structure0.filterMap (fun x =>
    match fm.lookup x.1 with
    | Option.some p => Option.some (p.1, map_mysql_type_to_clickhouse x.2.1, x.2.2)
    | Option.none => Option.none)

/-- The row-mapping loop of `migrate_table` (source lines 695-700): select
`row[i]` for exactly the structure positions whose field is mapped, in
source column order.  (`row[i]` out of range raises in Python and would be
caught by the outer handler; rows produced by `SELECT *` always have one
value per structure column, so the model totalizes the access with a
`None` default.) -/
def select_mapped_row (structure0 : List (PyStr × PyStr × PyStr)) (fm : List (PyStr × PyStr × PyStr)) (row : List PyVal) : List PyVal :=
  structure0.enum.filterMap (fun p =>
    if (fm.lookup p.2.1).isSome then Option.some (row.getD p.1 PyVal.none) else Option.none)

/-- The streaming loop of `migrate_table` (source lines 681-725): each batch
is column-selected, then handed to `insert_batch`; the first failing batch
aborts the loop with its error, keeping the statements already performed. -/
def stream_batches (tbl : PyStr) (structure0 : List (PyStr × PyStr × PyStr)) (fm : List (PyStr × PyStr × PyStr)) (names types : List PyStr) (oracle : Nat → InsertOracle) : List (List (List PyVal)) → Nat → Except PyStr Unit × List MigAction
  | [], _ => (Except.ok (), [])
  | b :: rest, k =>
    let mapped := b.map (select_mapped_row structure0 fm)
    match insert_batch tbl names mapped types (oracle k) with
    | (Except.error e, acts) => (Except.error e, acts)
    | (Except.ok _, acts) =>
      let r := stream_batches tbl structure0 fm names types oracle rest (k + 1)
      (r.1, acts ++ r.2)

/-- `DataMigrator.migrate_table` (source lines 615-751), as a function of
the external responses, returning the `MigrationResult` together with the
trace of statements issued against ClickHouse.  The structure follows the
source: load mapping; MySQL row count with the `0 → Failed("MySQL表不存在或为空")`
policy; the exists/skip/auto-recreate policy; structure read; field build;
table creation; batch streaming; final ClickHouse row count; and the outer
`except` that converts any raised error into a `Failed` result with
`str(e)`. -/
def migrate_table (env : TableEnv) : MigrationResult × List MigAction :=
  match env.load_mapping with
  | Except.error e => (⟨Option.none, false, 0, 0, e⟩, [])
  | Except.ok tm =>
    let mysql_row_count := mysql_get_table_row_count env.mysql_count_query
    if mysql_row_count = 0 then
      (⟨Option.some tm, false, 0, 0, pstr "MySQL表不存在或为空"⟩, [])
    else if env.ch_exists && env.skip_existing then
      (⟨Option.some tm, true, mysql_row_count, clickhouse_get_table_row_count env.ch_count_query, []⟩, [])
    else
      let acts0 := if env.ch_exists && env.auto_recreate then [MigAction.dropTable tm.clickhouse_table] else []
      match env.mysql_structure with
      | Except.error e => (⟨Option.some tm, false, 0, 0, e⟩, acts0)
      | Except.ok structure0 =>
        let fields := build_clickhouse_fields structure0 tm.field_mappings
        match create_table tm.clickhouse_table fields env.table_comment env.create_ddl with
        | Except.error e => (⟨Option.some tm, false, 0, 0, e⟩, acts0)
        | Except.ok sql =>
          let acts1 := acts0 ++ [MigAction.createTable tm.clickhouse_table sql]
          match env.batches with
          | Except.error e => (⟨Option.some tm, false, 0, 0, e⟩, acts1)
          | Except.ok bs =>
            let names := fields.map (fun f => f.1)
            let types := fields.map (fun f => f.2.1)
            match stream_batches tm.clickhouse_table structure0 tm.field_mappings names types env.insert_oracle bs 0 with
            | (Except.error e, acts2) => (⟨Option.some tm, false, 0, 0, e⟩, acts1 ++ acts2)
            | (Except.ok _, acts2) =>
              (⟨Option.some tm, true, mysql_row_count, clickhouse_get_table_row_count env.ch_count_query, []⟩, acts1 ++ acts2)

/-- `DataMigrator.migrate_all_tables` (source lines 753-769): the per-file
loop, appending exactly one `MigrationResult` per discovered mapping file
and never aborting on a failed table. -/
def migrate_all_tables : List TableEnv → List MigrationResult
  | [] => []
  | env :: rest => (migrate_table env).1 :: migrate_all_tables rest

/-- An insert oracle with every driver call succeeding. -/
def okOracle : InsertOracle := ⟨Except.ok (), fun _ => Except.ok ()⟩

/-- Concrete mapping used by the orchestrator witnesses. -/
def tmEx : TableMapping :=
  ⟨pstr "users", pstr "users_ch",
   [(pstr "id", pstr "id", pstr "String"), (pstr "name", pstr "name", pstr "String")]⟩

/-- Concrete MySQL structure used by the orchestrator witnesses. -/
def structEx : List (PyStr × PyStr × PyStr) :=
  [(pstr "id", pstr "INT", pstr ""), (pstr "name", pstr "VARCHAR(50)", pstr "")]

/-- Concrete batches used by the orchestrator witnesses. -/
def batchesEx : List (List (List PyVal)) :=
  [[[PyVal.int 1, PyVal.str (pstr "a")], [PyVal.int 2, PyVal.str (pstr "b")], [PyVal.int 3, PyVal.none]]]

/-- A fully successful environment whose source count (3) and target count
(2) disagree. -/
def envOk : TableEnv :=
  ⟨Except.ok tmEx, Except.ok 3, false, false, true, Except.ok structEx, pstr "",
   Except.ok (), Except.ok batchesEx, fun _ => okOracle, Except.ok 2⟩

/-- Environment whose mapping-file load fails. -/
def envLoadErr : TableEnv :=
  ⟨Except.error (pstr "加载CSV映射文件失败 users-users_ch.csv: boom"), Except.ok 3, false, false, true,
   Except.ok structEx, pstr "", Except.ok (), Except.ok batchesEx, fun _ => okOracle, Except.ok 2⟩

/-- Environment whose source row-count metadata query fails. -/
def envCountErr : TableEnv :=
  ⟨Except.ok tmEx, Except.error (pstr "no such table"), false, false, true,
   Except.ok structEx, pstr "", Except.ok (), Except.ok batchesEx, fun _ => okOracle, Except.ok 2⟩

/-- Environment with a zero-row source table. -/
def envZero : TableEnv :=
  ⟨Except.ok tmEx, Except.ok 0, false, false, true,
   Except.ok structEx, pstr "", Except.ok (), Except.ok batchesEx, fun _ => okOracle, Except.ok 2⟩

/-- Environment whose source structure read fails. -/
def envStructErr : TableEnv :=
  ⟨Except.ok tmEx, Except.ok 3, false, false, true,
   Except.error (pstr "获取表结构失败: lost connection"), pstr "", Except.ok (), Except.ok batchesEx,
   fun _ => okOracle, Except.ok 2⟩

/-- Environment whose target DDL is rejected. -/
def envCreateErr : TableEnv :=
  ⟨Except.ok tmEx, Except.ok 3, false, false, true,
   Except.ok structEx, pstr "", Except.error (pstr "Code: 62"), Except.ok batchesEx,
   fun _ => okOracle, Except.ok 2⟩

/-- Environment whose (single) batch bulk insert is rejected, every
single-row diagnostic insert succeeding. -/
def envBatchErr : TableEnv :=
  ⟨Except.ok tmEx, Except.ok 3, false, false, true,
   Except.ok structEx, pstr "", Except.ok (), Except.ok batchesEx,
   fun _ => ⟨Except.error (pstr "Code: 241"), fun _ => Except.ok ()⟩, Except.ok 2⟩

/-- Concrete batch for the diagnostic-retry witnesses. -/
def c6_batch : List (List PyVal) := [[PyVal.int 1], [PyVal.int 2]]

/-- Oracle for the diagnostic-retry witness: bulk fails, single rows
succeed. -/
def c6_oracle : InsertOracle := ⟨Except.error (pstr "Code: 241"), fun _ => Except.ok ()⟩

/-- Concrete batch for the C10 analysis. -/
def c10_batch : List (List PyVal) := [[PyVal.int 1], [PyVal.int 2]]

/-- Oracle for the C10 analysis: bulk fails, the first single-row insert
fails, the second would succeed. -/
def c10_oracle : InsertOracle :=
  ⟨Except.error (pstr "Code: 117"),
   fun i => if i = 0 then Except.error (pstr "bad value") else Except.ok ()⟩

/-- Junk defaults for positional indexing of result lists. -/
def dummyResult : MigrationResult := ⟨Option.none, false, 0, 0, []⟩

/-- Junk default environment for positional indexing. -/
def dummyEnv : TableEnv :=
  ⟨Except.error [], Except.ok 0, false, false, false, Except.ok [], [],
   Except.ok (), Except.ok [], fun _ => okOracle, Except.ok 0⟩

lemma upperP_of_digits (d : PyStr) (hd : ∀ c ∈ d, isDigitC c = true) : upperP d = d := by
  induction d with
  | nil => rfl
  | cons c cs ih =>
    have hc := hd c (List.mem_cons_self _ _)
    have hlow : isLowerC c = false := by
      simp only [isDigitC, Bool.and_eq_true, decide_eq_true_eq] at hc
      simp only [isLowerC, Bool.and_eq_false_iff, decide_eq_false_iff_not]
      omega
    simp [upperP] at ih ⊢
    exact ⟨by simp [hlow], ih (fun x hx => hd x (List.mem_cons_of_mem _ hx))⟩

lemma foldl_keep_some (l : List ChField) (p : PyStr) :
    l.foldl (fun acc x => match acc with
      | Option.none => Option.some x.1
      | Option.some q => Option.some q) (Option.some p) = Option.some p := by
  induction l with
  | nil => rfl
  | cons x xs ih => simpa using ih

lemma primary_key_field_cons (f : ChField) (fs : List ChField) :
    primary_key_field (f :: fs) = Option.some f.1 := by
  simp only [primary_key_field, List.foldl_cons]
  exact foldl_keep_some fs f.1

lemma create_table_cons (tbl : PyStr) (f : ChField) (fs : List ChField) (cmt : PyStr) :
    create_table tbl (f :: fs) cmt (Except.ok ()) =
      Except.ok (pstr "\n            CREATE TABLE \x60" ++ tbl ++
        pstr "\x60 (\n                " ++ joinSep (pstr ",\n    ") ((f :: fs).map field_def_sql) ++
        pstr "\n            ) ENGINE = MergeTree()\n            ORDER BY \x60" ++ f.1 ++
        pstr "\x60\n            " ++
        (if cmt ≠ ([] : PyStr) then pstr "COMMENT \x27" ++ cmt ++ pstr "\x27" else ([] : PyStr)) ++
        pstr "\n            ") := by
  simp only [create_table, primary_key_field_cons]

lemma diag_rows_spec (oracle : InsertOracle) :
    ∀ (l : List (List PyVal)) (i : Nat),
      diag_rows oracle l i <+: l
      ∧ (∀ j, j < (diag_rows oracle l i).length → oracle.row (i + j) = Except.ok ())
      ∧ ((diag_rows oracle l i).length < l.length →
          ∃ msg, oracle.row (i + (diag_rows oracle l i).length) = Except.error msg) := by
  intro l
  induction l with
  | nil =>
    intro i
    exact ⟨List.nil_prefix, fun j hj => absurd hj (by simp [diag_rows]), fun h => absurd h (by simp [diag_rows])⟩
  | cons r rest ih =>
    intro i
    cases hrow : oracle.row i with
    | ok u =>
      cases u
      obtain ⟨ihp, ihok, ihfail⟩ := ih (i + 1)
      have hd : diag_rows oracle (r :: rest) i = r :: diag_rows oracle rest (i + 1) := by
        simp [diag_rows, hrow]
      refine ⟨?_, ?_, ?_⟩
      · rw [hd]
        exact List.cons_prefix_cons.2 ⟨rfl, ihp⟩
      · intro j hj
        rw [hd] at hj
        cases j with
        | zero => simpa using hrow
        | succ j' =>
          have hj' : j' < (diag_rows oracle rest (i + 1)).length := by
            simp only [List.length_cons] at hj; omega
          have hok := ihok j' hj'
          have heq : i + (j' + 1) = i + 1 + j' := by omega
          rw [heq]; exact hok
      · intro h
        rw [hd] at h ⊢
        simp only [List.length_cons] at h
        have h' : (diag_rows oracle rest (i + 1)).length < rest.length := by omega
        obtain ⟨msg, hmsg⟩ := ihfail h'
        refine ⟨msg, ?_⟩
        have heq : i + (r :: diag_rows oracle rest (i + 1)).length = i + 1 + (diag_rows oracle rest (i + 1)).length := by
          simp only [List.length_cons]; omega
        rw [heq]; exact hmsg
    | error msg =>
      refine ⟨?_, ?_, ?_⟩
      · simp [diag_rows, hrow]
      · intro j hj; simp [diag_rows, hrow] at hj
      · intro _; exact ⟨msg, by simp [diag_rows, hrow]⟩

lemma inserted_rows_map (tbl : PyStr) (l : List (List PyVal)) :
    inserted_rows (l.map (MigAction.insertRowStmt tbl)) = l := by
  induction l with
  | nil => rfl
  | cons r rest ih => simp [inserted_rows, List.filterMap_cons] at ih ⊢; exact ih

lemma stream_batches_ok (tbl : PyStr) (st fm : List (PyStr × PyStr × PyStr))
    (names types : List PyStr) (oracle : Nat → InsertOracle) :
    ∀ (bs : List (List (List PyVal))) (k : Nat),
      (∀ j, j < bs.length → (oracle (k + j)).bulk = Except.ok ()) →
      (stream_batches tbl st fm names types oracle bs k).1 = Except.ok () := by
  intro bs
  induction bs with
  | nil => intro k _; rfl
  | cons b rest ih =>
    intro k h
    have h0 : (oracle k).bulk = Except.ok () := by simpa using h 0 (by simp)
    have hrest : (stream_batches tbl st fm names types oracle rest (k + 1)).1 = Except.ok () := by
      apply ih
      intro j hj
      have := h (j + 1) (by simpa using Nat.succ_lt_succ hj)
      have heq : k + (j + 1) = k + 1 + j := by omega
      rw [heq] at this; exact this
    simp [stream_batches, insert_batch, h0, hrest]

lemma stream_batches_err (tbl : PyStr) (st fm : List (PyStr × PyStr × PyStr))
    (names types : List PyStr) (oracle : Nat → InsertOracle) (e : PyStr) :
    ∀ (pre : List (List (List PyVal))) (b : List (List PyVal)) (rest : List (List (List PyVal))) (k : Nat),
      (∀ j, j < pre.length → (oracle (k + j)).bulk = Except.ok ()) →
      (oracle (k + pre.length)).bulk = Except.error e →
      stream_batches tbl st fm names types oracle (pre ++ b :: rest) k =
        (Except.error (pstr "批量插入数据失败: " ++ (pstr "批量插入数据失败: " ++ e)),
         pre.map (fun bb => MigAction.insertBatchStmt tbl ((bb.map (select_mapped_row st fm)).map (process_row types)))
           ++ (diag_rows (oracle (k + pre.length))
                (((b.map (select_mapped_row st fm)).map (process_row types)).take 5) 0).map
              (MigAction.insertRowStmt tbl)) := by
  intro pre
  induction pre with
  | nil =>
    intro b rest k _ hbad
    have hbad0 : (oracle k).bulk = Except.error e := by simpa using hbad
    simp [stream_batches, insert_batch, hbad0]
  | cons p ps ih =>
    intro b rest k hok hbad
    have h0 : (oracle k).bulk = Except.ok () := by simpa using hok 0 (by simp)
    have hok' : ∀ j, j < ps.length → (oracle (k + 1 + j)).bulk = Except.ok () := by
      intro j hj
      have := hok (j + 1) (by simpa using Nat.succ_lt_succ hj)
      have heq : k + (j + 1) = k + 1 + j := by omega
      rw [heq] at this; exact this
    have hbad' : (oracle (k + 1 + ps.length)).bulk = Except.error e := by
      have heq : k + (p :: ps).length = k + 1 + ps.length := by simp; omega
      rw [heq] at hbad; exact hbad
    have hrest := ih b rest (k + 1) hok' hbad'
    simp only [List.cons_append, stream_batches, insert_batch, h0, List.length_cons]
    simp only [List.append_eq]
    rw [hrest]
    have hidx : k + 1 + ps.length = k + (ps.length + 1) := by omega
    rw [hidx]
    simp [List.append_assoc]

lemma migrate_table_stream_ok (env : TableEnv) (tm : TableMapping) (n : Nat)
    (st : List (PyStr × PyStr × PyStr)) (f : ChField) (fs : List ChField)
    (bs : List (List (List PyVal)))
    (h1 : env.load_mapping = Except.ok tm)
    (h2 : env.mysql_count_query = Except.ok n)
    (h3 : n ≠ 0)
    (h4 : (env.ch_exists && env.skip_existing) = false)
    (h5 : env.mysql_structure = Except.ok st)
    (h6 : build_clickhouse_fields st tm.field_mappings = f :: fs)
    (h7 : env.create_ddl = Except.ok ())
    (h8 : env.batches = Except.ok bs)
    (h9 : ∀ j, j < bs.length → (env.insert_oracle j).bulk = Except.ok ()) :
    (migrate_table env).1 =
      ⟨Option.some tm, true, n, clickhouse_get_table_row_count env.ch_count_query, []⟩ := by
  rcases hs : stream_batches tm.clickhouse_table st tm.field_mappings
      ((f :: fs).map (fun x => x.1)) ((f :: fs).map (fun x => x.2.1))
      env.insert_oracle bs 0 with ⟨r, acts2⟩
  have hr : r = Except.ok () := by
    have hok := stream_batches_ok tm.clickhouse_table st tm.field_mappings
      ((f :: fs).map (fun x => x.1)) ((f :: fs).map (fun x => x.2.1))
      env.insert_oracle bs 0 (by intro j hj; simpa using h9 j hj)
    rw [hs] at hok; exact hok
  subst hr
  simp only [migrate_table, h1, h2, mysql_get_table_row_count]
  rw [if_neg h3]
  simp only [h4, Bool.false_eq_true, if_false, h5, h6, h7, create_table_cons, h8, hs]

lemma migrate_table_stream_err (env : TableEnv) (tm : TableMapping) (n : Nat)
    (st : List (PyStr × PyStr × PyStr)) (f : ChField) (fs : List ChField)
    (pre : List (List (List PyVal))) (b : List (List PyVal)) (rest : List (List (List PyVal)))
    (e : PyStr)
    (h1 : env.load_mapping = Except.ok tm)
    (h2 : env.mysql_count_query = Except.ok n)
    (h3 : n ≠ 0)
    (h4 : (env.ch_exists && env.skip_existing) = false)
    (h5 : env.mysql_structure = Except.ok st)
    (h6 : build_clickhouse_fields st tm.field_mappings = f :: fs)
    (h7 : env.create_ddl = Except.ok ())
    (h8 : env.batches = Except.ok (pre ++ b :: rest))
    (h9 : ∀ j, j < pre.length → (env.insert_oracle j).bulk = Except.ok ())
    (h10 : (env.insert_oracle pre.length).bulk = Except.error e) :
    (migrate_table env).1 =
      ⟨Option.some tm, false, 0, 0, pstr "批量插入数据失败: " ++ (pstr "批量插入数据失败: " ++ e)⟩
    ∧ ∀ bb ∈ pre,
        MigAction.insertBatchStmt tm.clickhouse_table
          ((bb.map (select_mapped_row st tm.field_mappings)).map
            (process_row ((f :: fs).map (fun x => x.2.1)))) ∈ (migrate_table env).2 := by
  have hstream := stream_batches_err tm.clickhouse_table st tm.field_mappings
    ((f :: fs).map (fun x => x.1)) ((f :: fs).map (fun x => x.2.1))
    env.insert_oracle e pre b rest 0
    (by intro j hj; simpa using h9 j hj) (by simpa using h10)
  have hred : migrate_table env =
      (⟨Option.some tm, false, 0, 0, pstr "批量插入数据失败: " ++ (pstr "批量插入数据失败: " ++ e)⟩,
       ((if env.ch_exists && env.auto_recreate then [MigAction.dropTable tm.clickhouse_table] else [])
          ++ [MigAction.createTable tm.clickhouse_table
               (pstr "\n            CREATE TABLE \x60" ++ tm.clickhouse_table ++
                pstr "\x60 (\n                " ++ joinSep (pstr ",\n    ") ((f :: fs).map field_def_sql) ++
                pstr "\n            ) ENGINE = MergeTree()\n            ORDER BY \x60" ++ f.1 ++
                pstr "\x60\n            " ++
                (if env.table_comment ≠ ([] : PyStr) then pstr "COMMENT \x27" ++ env.table_comment ++ pstr "\x27" else ([] : PyStr)) ++
                pstr "\n            ")])
         ++ (pre.map (fun bb => MigAction.insertBatchStmt tm.clickhouse_table
               ((bb.map (select_mapped_row st tm.field_mappings)).map
                 (process_row ((f :: fs).map (fun x => x.2.1)))))
             ++ (diag_rows (env.insert_oracle (0 + pre.length))
                  (((b.map (select_mapped_row st tm.field_mappings)).map
                    (process_row ((f :: fs).map (fun x => x.2.1)))).take 5) 0).map
                (MigAction.insertRowStmt tm.clickhouse_table))) := by
    simp only [migrate_table, h1, h2, mysql_get_table_row_count]
    rw [if_neg h3]
    simp only [h4, Bool.false_eq_true, if_false, h5, h6, h7, create_table_cons, h8, hstream]
  constructor
  · rw [hred]
  · intro bb hbb
    rw [hred]
    simp only [List.mem_append]
    right; left
    exact List.mem_map_of_mem _ hbb

lemma tinyint_paren_not_one (d : PyStr) (hd : ∀ c ∈ d, isDigitC c = true) (hne : d ≠ [49]) :
    (pstr "TINYINT(1)").isPrefixOf (pstr "TINYINT(" ++ d ++ pstr ")") = false := by
  rw [Bool.eq_false_iff]
  intro hcontra
  have hp : pstr "TINYINT(1)" <+: pstr "TINYINT(" ++ (d ++ pstr ")") :=
    List.isPrefixOf_iff_prefix.mp hcontra
  rw [show pstr "TINYINT(1)" = pstr "TINYINT(" ++ ([49, 41] : PyStr) from by decide] at hp
  have hp2 : ([49, 41] : PyStr) <+: d ++ pstr ")" := (List.prefix_append_right_inj _).mp hp
  match d, hne, hd, hp2 with
  | [], _, _, hp2 =>
    simp [show pstr ")" = ([41] : PyStr) from by decide] at hp2
  | [c], hne, hd, hp2 =>
    have he : 49 = c := by
      simpa [show pstr ")" = ([41] : PyStr) from by decide] using hp2
    exact hne (by rw [← he])
  | c :: c2 :: cs, _, hd, hp2 =>
    rw [List.cons_append] at hp2
    obtain ⟨-, hp3⟩ := List.cons_prefix_cons.mp hp2
    rw [List.cons_append] at hp3
    obtain ⟨he2, -⟩ := List.cons_prefix_cons.mp hp3
    have := hd c2 (by simp)
    simp only [isDigitC, Bool.and_eq_true, decide_eq_true_eq] at this
    omega

/-- C1: `TypeMapper.map` returns the boolean target type for `TINYINT(1)`
in any letter case, and returns `Int8` for every other parameterized tiny
integer type `TINYINT(n)` with `n ≠ 1` (its parameter written as a digit
string other than `1`), for example `TINYINT(2)` and `TINYINT(10)`. -/
theorem spec_c1 :
    (∀ s : PyStr, upperP s = pstr "TINYINT(1)" → map_mysql_type_to_clickhouse s = pstr "Bool")
    ∧ (∀ d : PyStr, (∀ c ∈ d, isDigitC c = true) → d ≠ [49] →
        map_mysql_type_to_clickhouse (pstr "TINYINT(" ++ d ++ pstr ")") = pstr "Int8")
    ∧ map_mysql_type_to_clickhouse (pstr "TINYINT(2)") = pstr "Int8"
    ∧ map_mysql_type_to_clickhouse (pstr "TINYINT(10)") = pstr "Int8" := by
  refine ⟨?_, ?_, by decide, by decide⟩
  · intro s h
    simp only [map_mysql_type_to_clickhouse, h]
    rw [if_pos (by decide : (pstr "TINYINT(1)").isPrefixOf (pstr "TINYINT(1)") = true)]
  · intro d hd hne
    have hu : upperP (pstr "TINYINT(" ++ d ++ pstr ")") = pstr "TINYINT(" ++ d ++ pstr ")" := by
      simp only [upperP, List.map_append]
      rw [show (pstr "TINYINT(").map (fun c => if isLowerC c then c - 32 else c) = pstr "TINYINT(" from by decide]
      rw [show (pstr ")").map (fun c => if isLowerC c then c - 32 else c) = pstr ")" from by decide]
      have hud := upperP_of_digits d hd
      simp only [upperP] at hud
      rw [hud]
    have hpre := tinyint_paren_not_one d hd hne
    have htw : (pstr "TINYINT(" ++ d ++ pstr ")").takeWhile (fun c => c ≠ 40) = pstr "TINYINT" := by
      rw [show pstr "TINYINT(" = ([84, 73, 78, 89, 73, 78, 84, 40] : PyStr) from by decide]
      simp [List.takeWhile_cons]
      decide
    simp only [map_mysql_type_to_clickhouse, hu, hpre, Bool.false_eq_true, if_false, htw]
    rw [show stripP (pstr "TINYINT") = pstr "TINYINT" from by decide]
    split
    next hcond =>
      exfalso
      simp only [Bool.and_eq_true, decide_eq_true_eq] at hcond
      exact absurd hcond.1 (by decide)
    next _ => decide

/-- Witness for C1: instantiating the universally quantified part at the
concrete digit string `10` (and the case-insensitive part at `tinyint(1)`). -/
theorem spec_c1_witness :
    map_mysql_type_to_clickhouse (pstr "TINYINT(" ++ ([49, 48] : PyStr) ++ pstr ")") = pstr "Int8"
    ∧ map_mysql_type_to_clickhouse (pstr "tinyint(1)") = pstr "Bool" :=
  ⟨spec_c1.2.1 [49, 48] (by decide) (by decide),
   spec_c1.1 (pstr "tinyint(1)") (by decide)⟩

/-- C3 fails as stated: `MySQLClient.get_table_row_count` never raises a
`SchemaError` — its handler catches any metadata-query failure, logs, and
returns `0`, the same value a valid empty table produces, so a failed query
is indistinguishable from a zero-row table. -/
theorem spec_c3_counterexample :
    mysql_get_table_row_count (Except.error (pstr "Table does not exist")) = 0
    ∧ mysql_get_table_row_count (Except.ok 0) = 0 :=
  ⟨rfl, rfl⟩

/-- C3 as amended: reading the source row count is total and returns `0`
both for a failed metadata query and for a genuinely empty table; the
orchestrator then maps either situation to the same Failed
`MySQL表不存在或为空` ("table absent or empty") result, so the caller cannot
distinguish the two. -/
theorem spec_c3_amended :
    (∀ e : PyStr, mysql_get_table_row_count (Except.error e) = 0)
    ∧ (∀ n : Nat, mysql_get_table_row_count (Except.ok n) = n)
    ∧ (∀ (env : TableEnv) (tm : TableMapping) (e : PyStr),
        env.load_mapping = Except.ok tm →
        env.mysql_count_query = Except.error e →
        (migrate_table env).1 = ⟨Option.some tm, false, 0, 0, pstr "MySQL表不存在或为空"⟩) := by
  refine ⟨fun e => rfl, fun n => rfl, ?_⟩
  intro env tm e h1 h2
  simp [migrate_table, h1, h2, mysql_get_table_row_count]

/-- Witness for C3 (amended): a concrete environment whose count query
fails is reported as the absent-or-empty failure. -/
theorem spec_c3_witness :
    (migrate_table envCountErr).1 =
      ⟨Option.some tmEx, false, 0, 0, pstr "MySQL表不存在或为空"⟩ :=
  spec_c3_amended.2.2 envCountErr tmEx (pstr "no such table") rfl rfl

set_option maxRecDepth 100000 in
/-- C7: string sanitization always truncates to at most 1000 characters,
strips every control character except tab, newline and carriage return,
falls back to the empty string when the cleaned result cannot be re-encoded
as UTF-8 (lone surrogates), and on the concrete input of a NUL byte
followed by 1200 printable characters returns exactly the first 1000
printable characters — NUL removed, length 1000 ≤ 1000. -/
theorem spec_c7 :
    (∀ s : PyStr, (clean_string_value s).length ≤ 1000)
    ∧ (∀ (s : PyStr) (c : Nat), c ∈ clean_string_value s → (32 ≤ c ∨ c = 9 ∨ c = 10 ∨ c = 13))
    ∧ (∀ s : PyStr,
        utf8Encodable ((s.filter (fun c => 32 ≤ c || c = 9 || c = 10 || c = 13)).filter
          (fun c => ¬ c ∈ replacedCtl)) = false →
        clean_string_value s = [])
    ∧ clean_string_value (0 :: List.replicate 1200 65) = List.replicate 1000 65
    ∧ (0 : Nat) ∉ clean_string_value (0 :: List.replicate 1200 65)
    ∧ (clean_string_value (0 :: List.replicate 1200 65)).length ≤ 1000 := by
  refine ⟨?_, ?_, ?_, by decide, by decide, by decide⟩
  · intro s
    simp only [clean_string_value]
    split
    · simp
    · split
      · simp
      · split
        · simp [List.length_take]
        · next h => omega
  · intro s c hc
    simp only [clean_string_value] at hc
    split at hc
    · simp at hc
    · split at hc
      · simp at hc
      · have hmem : c ∈ (s.filter (fun c => 32 ≤ c || c = 9 || c = 10 || c = 13)).filter
            (fun c => ¬ c ∈ replacedCtl) := by
          split at hc
          · exact List.take_subset _ _ hc
          · exact hc
        have h1 : c ∈ s.filter (fun c => 32 ≤ c || c = 9 || c = 10 || c = 13) :=
          List.mem_of_mem_filter hmem
        have h2 := List.of_mem_filter h1
        simp only [Bool.or_eq_true, decide_eq_true_eq] at h2
        tauto
  · intro s hbad
    simp only [clean_string_value]
    split
    · rfl
    · have hcond : ¬ utf8Encodable ((s.filter (fun c => 32 ≤ c || c = 9 || c = 10 || c = 13)).filter
          (fun c => ¬ c ∈ replacedCtl)) = true := by
        rw [hbad]; simp
      rw [if_pos hcond]

/-- Witness for C7: the hypothesis-bearing parts instantiated at a concrete
member of a cleaned string and at a concrete surrogate-carrying string. -/
theorem spec_c7_witness :
    (32 ≤ 97 ∨ (97 : Nat) = 9 ∨ (97 : Nat) = 10 ∨ (97 : Nat) = 13)
    ∧ clean_string_value [55296, 97] = [] :=
  ⟨spec_c7.2.1 (pstr "ab") 97 (by decide),
   spec_c7.2.2.1 [55296, 97] (by decide)⟩

/-- C4: when streaming completes without error, the orchestrator fetches
the target row count and reports success with both counts, with no
hypothesis at all relating the two counts — a mismatch never turns the
result into a failure. -/
theorem spec_c4 (env : TableEnv) (tm : TableMapping) (n : Nat)
    (st : List (PyStr × PyStr × PyStr)) (f : ChField) (fs : List ChField)
    (bs : List (List (List PyVal)))
    (h1 : env.load_mapping = Except.ok tm)
    (h2 : env.mysql_count_query = Except.ok n)
    (h3 : n ≠ 0)
    (h4 : (env.ch_exists && env.skip_existing) = false)
    (h5 : env.mysql_structure = Except.ok st)
    (h6 : build_clickhouse_fields st tm.field_mappings = f :: fs)
    (h7 : env.create_ddl = Except.ok ())
    (h8 : env.batches = Except.ok bs)
    (h9 : ∀ j, j < bs.length → (env.insert_oracle j).bulk = Except.ok ()) :
    (migrate_table env).1 =
      ⟨Option.some tm, true, n, clickhouse_get_table_row_count env.ch_count_query, []⟩ :=
  migrate_table_stream_ok env tm n st f fs bs h1 h2 h3 h4 h5 h6 h7 h8 h9

/-- Witness for C4: a concrete run whose source count is 3 and target count
is 2 still yields a success result carrying the mismatching counts. -/
theorem spec_c4_witness :
    (migrate_table envOk).1 = ⟨Option.some tmEx, true, 3, 2, []⟩ ∧ (3 : Nat) ≠ 2 :=
  ⟨spec_c4 envOk tmEx 3 structEx (pstr "id", pstr "Int32", pstr "")
      [(pstr "name", pstr "String", pstr "")] batchesEx
      rfl rfl (by decide) rfl rfl (by decide) rfl rfl (fun j hj => rfl),
   by decide⟩

/-- C9: a zero source row count (absent or empty table) immediately yields
a Failed result carrying the absent-or-empty message, with an empty action
trace — no drop, no create, no insert is issued. -/
theorem spec_c9 (env : TableEnv) (tm : TableMapping)
    (h1 : env.load_mapping = Except.ok tm)
    (h2 : mysql_get_table_row_count env.mysql_count_query = 0) :
    migrate_table env =
      (⟨Option.some tm, false, 0, 0, pstr "MySQL表不存在或为空"⟩, ([] : List MigAction)) := by
  simp only [migrate_table, h1]
  rw [if_pos h2]

/-- Witness for C9: a concrete zero-row environment. -/
theorem spec_c9_witness :
    migrate_table envZero =
      (⟨Option.some tmEx, false, 0, 0, pstr "MySQL表不存在或为空"⟩, ([] : List MigAction)) :=
  spec_c9 envZero tmEx rfl rfl

lemma create_table_cons_err (tbl : PyStr) (f : ChField) (fs : List ChField)
    (cmt : PyStr) (e : PyStr) :
    create_table tbl (f :: fs) cmt (Except.error e) =
      Except.error (pstr "创建表失败: " ++ e) := by
  simp only [create_table, primary_key_field_cons]

/-- C5: the run produces exactly one result per mapping file (one result
per environment, each computed independently of the others' outcomes), and
every per-table error — mapping-file load failure, schema read failure,
schema creation failure, batch insert failure — is caught at the
orchestrator boundary and converted into a Failed result carrying the
underlying error message. -/
theorem spec_c5 :
    (∀ envs : List TableEnv, (migrate_all_tables envs).length = envs.length)
    ∧ (∀ (envs : List TableEnv) (i : Nat), i < envs.length →
        (migrate_all_tables envs).getD i dummyResult = (migrate_table (envs.getD i dummyEnv)).1)
    ∧ (∀ (env : TableEnv) (e : PyStr), env.load_mapping = Except.error e →
        (migrate_table env).1 = ⟨Option.none, false, 0, 0, e⟩)
    ∧ (∀ (env : TableEnv) (tm : TableMapping) (e : PyStr),
        env.load_mapping = Except.ok tm →
        mysql_get_table_row_count env.mysql_count_query ≠ 0 →
        (env.ch_exists && env.skip_existing) = false →
        env.mysql_structure = Except.error e →
        (migrate_table env).1 = ⟨Option.some tm, false, 0, 0, e⟩)
    ∧ (∀ (env : TableEnv) (tm : TableMapping) (st : List (PyStr × PyStr × PyStr))
        (f : ChField) (fs : List ChField) (e : PyStr),
        env.load_mapping = Except.ok tm →
        mysql_get_table_row_count env.mysql_count_query ≠ 0 →
        (env.ch_exists && env.skip_existing) = false →
        env.mysql_structure = Except.ok st →
        build_clickhouse_fields st tm.field_mappings = f :: fs →
        env.create_ddl = Except.error e →
        (migrate_table env).1 = ⟨Option.some tm, false, 0, 0, pstr "创建表失败: " ++ e⟩)
    ∧ (∀ (env : TableEnv) (tm : TableMapping) (n : Nat) (st : List (PyStr × PyStr × PyStr))
        (f : ChField) (fs : List ChField)
        (pre : List (List (List PyVal))) (b : List (List PyVal)) (rest : List (List (List PyVal)))
        (e : PyStr),
        env.load_mapping = Except.ok tm →
        env.mysql_count_query = Except.ok n →
        n ≠ 0 →
        (env.ch_exists && env.skip_existing) = false →
        env.mysql_structure = Except.ok st →
        build_clickhouse_fields st tm.field_mappings = f :: fs →
        env.create_ddl = Except.ok () →
        env.batches = Except.ok (pre ++ b :: rest) →
        (∀ j, j < pre.length → (env.insert_oracle j).bulk = Except.ok ()) →
        (env.insert_oracle pre.length).bulk = Except.error e →
        (migrate_table env).1 =
          ⟨Option.some tm, false, 0, 0,
           pstr "批量插入数据失败: " ++ (pstr "批量插入数据失败: " ++ e)⟩) := by
  refine ⟨?_, ?_, ?_, ?_, ?_, ?_⟩
  · intro envs
    induction envs with
    | nil => rfl
    | cons env rest ih => simp [migrate_all_tables, ih]
  · intro envs
    induction envs with
    | nil => intro i hi; simp at hi
    | cons env rest ih =>
      intro i hi
      cases i with
      | zero => rfl
      | succ i' =>
        have hi' : i' < rest.length := by simpa using hi
        simpa [migrate_all_tables] using ih i' hi'
  · intro env e h
    simp [migrate_table, h]
  · intro env tm e h1 h2 h3 h4
    simp only [migrate_table, h1]
    rw [if_neg h2]
    simp only [h3, Bool.false_eq_true, if_false, h4]
  · intro env tm st f fs e h1 h2 h3 h4 h5 h6
    simp only [migrate_table, h1]
    rw [if_neg h2]
    simp only [h3, Bool.false_eq_true, if_false, h4, h5, h6, create_table_cons_err]
  · intro env tm n st f fs pre b rest e h1 h2 h3 h4 h5 h6 h7 h8 h9 h10
    exact (migrate_table_stream_err env tm n st f fs pre b rest e
      h1 h2 h3 h4 h5 h6 h7 h8 h9 h10).1

/-- Witness for C5: a two-file run with a failing first file still yields
one result per file; the concrete failing environments produce Failed
results carrying the underlying messages. -/
theorem spec_c5_witness :
    (migrate_all_tables [envLoadErr, envOk]).length = 2
    ∧ (migrate_all_tables [envLoadErr, envOk]).getD 1 dummyResult
        = (migrate_table ([envLoadErr, envOk].getD 1 dummyEnv)).1
    ∧ (migrate_table envLoadErr).1 =
        ⟨Option.none, false, 0, 0, pstr "加载CSV映射文件失败 users-users_ch.csv: boom"⟩
    ∧ (migrate_table envStructErr).1 =
        ⟨Option.some tmEx, false, 0, 0, pstr "获取表结构失败: lost connection"⟩
    ∧ (migrate_table envCreateErr).1 =
        ⟨Option.some tmEx, false, 0, 0, pstr "创建表失败: " ++ pstr "Code: 62"⟩
    ∧ (migrate_table envBatchErr).1 =
        ⟨Option.some tmEx, false, 0, 0,
         pstr "批量插入数据失败: " ++ (pstr "批量插入数据失败: " ++ pstr "Code: 241")⟩ :=
  ⟨spec_c5.1 [envLoadErr, envOk],
   spec_c5.2.1 [envLoadErr, envOk] 1 (by decide),
   spec_c5.2.2.1 envLoadErr _ rfl,
   spec_c5.2.2.2.1 envStructErr tmEx _ rfl (by decide) rfl rfl,
   spec_c5.2.2.2.2.1 envCreateErr tmEx structEx (pstr "id", pstr "Int32", pstr "")
     [(pstr "name", pstr "String", pstr "")] (pstr "Code: 62")
     rfl (by decide) rfl rfl (by decide) rfl,
   spec_c5.2.2.2.2.2 envBatchErr tmEx 3 structEx (pstr "id", pstr "Int32", pstr "")
     [(pstr "name", pstr "String", pstr "")] []
     [[PyVal.int 1, PyVal.str (pstr "a")], [PyVal.int 2, PyVal.str (pstr "b")], [PyVal.int 3, PyVal.none]] []
     (pstr "Code: 241")
     rfl rfl (by decide) rfl rfl (by decide) rfl rfl (fun j hj => by simp at hj) rfl⟩

/-- C6: when the bulk insert of a batch is rejected, `insert_batch` always
surfaces the wrapped batch-insert error (a failed batch is never silently
dropped), and the single-row diagnostic retry writes at most a prefix of
the first 5 processed rows of that batch; under the orchestrator, a
rejected first batch turns the table's migration into a failure. -/
theorem spec_c6 (tbl : PyStr) (names : List PyStr) (batch : List (List PyVal))
    (types : List PyStr) (oracle : InsertOracle) (e : PyStr)
    (hb : oracle.bulk = Except.error e) :
    (insert_batch tbl names batch types oracle).1 =
      Except.error (pstr "批量插入数据失败: " ++ (pstr "批量插入数据失败: " ++ e))
    ∧ inserted_rows (insert_batch tbl names batch types oracle).2 <+:
        (batch.map (process_row types)).take 5
    ∧ (inserted_rows (insert_batch tbl names batch types oracle).2).length ≤ 5
    ∧ (∀ (env : TableEnv) (tm : TableMapping) (n : Nat)
        (st : List (PyStr × PyStr × PyStr)) (f : ChField) (fs : List ChField)
        (b : List (List PyVal)) (rest : List (List (List PyVal))),
        env.load_mapping = Except.ok tm →
        env.mysql_count_query = Except.ok n →
        n ≠ 0 →
        (env.ch_exists && env.skip_existing) = false →
        env.mysql_structure = Except.ok st →
        build_clickhouse_fields st tm.field_mappings = f :: fs →
        env.create_ddl = Except.ok () →
        env.batches = Except.ok (b :: rest) →
        (env.insert_oracle 0).bulk = Except.error e →
        (migrate_table env).1.success = false) := by
  have hins : insert_batch tbl names batch types oracle =
      (Except.error (pstr "批量插入数据失败: " ++ (pstr "批量插入数据失败: " ++ e)),
       (diag_rows oracle ((batch.map (process_row types)).take 5) 0).map
         (MigAction.insertRowStmt tbl)) := by
    simp [insert_batch, hb]
  refine ⟨by rw [hins], ?_, ?_, ?_⟩
  · rw [hins]
    simp only [inserted_rows_map]
    exact (diag_rows_spec oracle ((batch.map (process_row types)).take 5) 0).1
  · rw [hins]
    simp only [inserted_rows_map]
    have hp := (diag_rows_spec oracle ((batch.map (process_row types)).take 5) 0).1
    have := hp.length_le
    have hlt := List.length_take 5 (batch.map (process_row types))
    omega
  · intro env tm n st f fs b rest h1 h2 h3 h4 h5 h6 h7 h8 h9
    have := (migrate_table_stream_err env tm n st f fs [] b rest e
      h1 h2 h3 h4 h5 h6 h7 (by simpa using h8)
      (by intro j hj; simp at hj) (by simpa using h9)).1
    rw [this]

/-- Witness for C6: a concrete rejected two-row batch whose single-row
retries all succeed. -/
theorem spec_c6_witness :
    (insert_batch (pstr "t") [pstr "c"] c6_batch [pstr "Int8"] c6_oracle).1 =
      Except.error (pstr "批量插入数据失败: " ++ (pstr "批量插入数据失败: " ++ pstr "Code: 241"))
    ∧ (inserted_rows (insert_batch (pstr "t") [pstr "c"] c6_batch [pstr "Int8"] c6_oracle).2).length ≤ 5 :=
  ⟨(spec_c6 (pstr "t") [pstr "c"] c6_batch [pstr "Int8"] c6_oracle (pstr "Code: 241") rfl).1,
   (spec_c6 (pstr "t") [pstr "c"] c6_batch [pstr "Int8"] c6_oracle (pstr "Code: 241") rfl).2.2.1⟩

/-- C8: with at least one mapped column, the generated `CREATE TABLE` uses
the first mapped column — the first source-order column that has a mapping
entry — as the `ORDER BY` key; with zero mapped columns, `create_table`
fails with the wrapped must-have-a-field error for every DDL outcome, so no
create statement is issued. -/
theorem spec_c8 :
    (∀ (tbl : PyStr) (f : ChField) (fs : List ChField) (cmt : PyStr),
        primary_key_field (f :: fs) = Option.some f.1
        ∧ ∃ sql, create_table tbl (f :: fs) cmt (Except.ok ()) = Except.ok sql
            ∧ (pstr "ORDER BY \x60" ++ f.1 ++ pstr "\x60") <:+: sql)
    ∧ (∀ (tbl cmt : PyStr) (ddl : Except PyStr Unit),
        create_table tbl ([] : List ChField) cmt ddl =
          Except.error (pstr "创建表失败: 表必须至少包含一个字段"))
    ∧ (∀ (fm : List (PyStr × PyStr × PyStr)) (pre : List (PyStr × PyStr × PyStr))
        (x : PyStr × PyStr × PyStr) (rest : List (PyStr × PyStr × PyStr))
        (p : PyStr × PyStr),
        (∀ y ∈ pre, fm.lookup y.1 = Option.none) →
        fm.lookup x.1 = Option.some p →
        build_clickhouse_fields (pre ++ x :: rest) fm =
          (p.1, map_mysql_type_to_clickhouse x.2.1, x.2.2) :: build_clickhouse_fields rest fm) := by
  refine ⟨?_, ?_, ?_⟩
  · intro tbl f fs cmt
    refine ⟨primary_key_field_cons f fs, _, create_table_cons tbl f fs cmt, ?_⟩
    rw [show pstr "\x60\n            " = pstr "\x60" ++ pstr "\n            " from by decide]
    rw [show pstr "\n            ) ENGINE = MergeTree()\n            ORDER BY \x60"
        = pstr "\n            ) ENGINE = MergeTree()\n            " ++ pstr "ORDER BY \x60" from by decide]
    refine ⟨pstr "\n            CREATE TABLE \x60" ++ tbl ++ pstr "\x60 (\n                " ++
        joinSep (pstr ",\n    ") ((f :: fs).map field_def_sql) ++
        pstr "\n            ) ENGINE = MergeTree()\n            ",
      pstr "\n            " ++
        (if cmt ≠ ([] : PyStr) then pstr "COMMENT \x27" ++ cmt ++ pstr "\x27" else ([] : PyStr)) ++
        pstr "\n            ", ?_⟩
    simp [List.append_assoc]
  · intro tbl cmt ddl
    rfl
  · intro fm pre x rest p hpre hx
    induction pre with
    | nil => simp [build_clickhouse_fields, List.filterMap_cons, hx]
    | cons y ys ih =>
      have hy := hpre y (List.mem_cons_self _ _)
      have ih' := ih (fun z hz => hpre z (List.mem_cons_of_mem _ hz))
      simp only [build_clickhouse_fields, List.cons_append, List.filterMap_cons, hy] at ih' ⊢
      exact ih'

/-- Witness for C8: the head-of-mapped-columns part instantiated at a
concrete structure whose first column is unmapped. -/
theorem spec_c8_witness :
    build_clickhouse_fields
        ([(pstr "skipme", pstr "INT", pstr "")] ++
          (pstr "id", pstr "INT", pstr "") :: [(pstr "name", pstr "VARCHAR(50)", pstr "")])
        [(pstr "id", pstr "uid", pstr "String"), (pstr "name", pstr "name", pstr "String")] =
      (pstr "uid", map_mysql_type_to_clickhouse (pstr "INT"), pstr "") ::
        build_clickhouse_fields [(pstr "name", pstr "VARCHAR(50)", pstr "")]
          [(pstr "id", pstr "uid", pstr "String"), (pstr "name", pstr "name", pstr "String")] :=
  spec_c8.2.2 [(pstr "id", pstr "uid", pstr "String"), (pstr "name", pstr "name", pstr "String")]
    [(pstr "skipme", pstr "INT", pstr "")] (pstr "id", pstr "INT", pstr "")
    [(pstr "name", pstr "VARCHAR(50)", pstr "")] (pstr "uid", pstr "String")
    (by intro y hy; simp at hy; rw [hy]; decide) (by decide)

set_option maxRecDepth 100000 in
/-- C10 fails as stated: the diagnostic loop breaks at the first row whose
individual insert fails, so a later row of the first 5 that would succeed
individually is never attempted and never inserted.  Concretely: the bulk
insert of a two-row batch fails, the first row's individual insert fails,
the second row's individual insert would succeed (`row 1` is `ok`), yet no
row of the batch is inserted at all. -/
theorem spec_c10_counterexample :
    c10_oracle.bulk = Except.error (pstr "Code: 117")
    ∧ c10_oracle.row 1 = Except.ok ()
    ∧ 1 < ((c10_batch.map (process_row [pstr "Int8"])).take 5).length
    ∧ inserted_rows (insert_batch (pstr "t") [pstr "c"] c10_batch [pstr "Int8"] c10_oracle).2 = [] :=
  ⟨rfl, rfl, by decide, by decide⟩

/-- C10 as amended: the diagnostic retry performs real inserts, row by row
in order over at most the first 5 rows of the failed batch, stopping at the
first row whose individual insert fails; exactly the rows of the longest
individually-succeeding prefix of those first 5 rows are inserted and
remain after the `BatchInsertError` (rows after the first failing row are
not attempted, even if they would succeed individually), and all rows of
prior successful batches of the table remain as well. -/
theorem spec_c10_amended :
    (∀ (tbl : PyStr) (names : List PyStr) (batch : List (List PyVal))
        (types : List PyStr) (oracle : InsertOracle) (e : PyStr),
        oracle.bulk = Except.error e →
        inserted_rows (insert_batch tbl names batch types oracle).2 <+:
          (batch.map (process_row types)).take 5
        ∧ (∀ j, j < (inserted_rows (insert_batch tbl names batch types oracle).2).length →
            oracle.row j = Except.ok ())
        ∧ ((inserted_rows (insert_batch tbl names batch types oracle).2).length <
              ((batch.map (process_row types)).take 5).length →
            ∃ msg, oracle.row
              (inserted_rows (insert_batch tbl names batch types oracle).2).length =
                Except.error msg)
        ∧ (inserted_rows (insert_batch tbl names batch types oracle).2).length ≤ 5)
    ∧ (∀ (env : TableEnv) (tm : TableMapping) (n : Nat)
        (st : List (PyStr × PyStr × PyStr)) (f : ChField) (fs : List ChField)
        (pre : List (List (List PyVal))) (b : List (List PyVal))
        (rest : List (List (List PyVal))) (e : PyStr),
        env.load_mapping = Except.ok tm →
        env.mysql_count_query = Except.ok n →
        n ≠ 0 →
        (env.ch_exists && env.skip_existing) = false →
        env.mysql_structure = Except.ok st →
        build_clickhouse_fields st tm.field_mappings = f :: fs →
        env.create_ddl = Except.ok () →
        env.batches = Except.ok (pre ++ b :: rest) →
        (∀ j, j < pre.length → (env.insert_oracle j).bulk = Except.ok ()) →
        (env.insert_oracle pre.length).bulk = Except.error e →
        ∀ bb ∈ pre,
          MigAction.insertBatchStmt tm.clickhouse_table
            ((bb.map (select_mapped_row st tm.field_mappings)).map
              (process_row ((f :: fs).map (fun x => x.2.1)))) ∈ (migrate_table env).2) := by
  constructor
  · intro tbl names batch types oracle e hb
    have hins : insert_batch tbl names batch types oracle =
        (Except.error (pstr "批量插入数据失败: " ++ (pstr "批量插入数据失败: " ++ e)),
         (diag_rows oracle ((batch.map (process_row types)).take 5) 0).map
           (MigAction.insertRowStmt tbl)) := by
      simp [insert_batch, hb]
    obtain ⟨hp, hok, hfail⟩ := diag_rows_spec oracle ((batch.map (process_row types)).take 5) 0
    rw [hins]
    simp only [inserted_rows_map]
    refine ⟨hp, ?_, ?_, ?_⟩
    · intro j hj
      simpa using hok j hj
    · intro hlt
      simpa using hfail hlt
    · have := hp.length_le
      have hlt := List.length_take 5 (batch.map (process_row types))
      omega
  · intro env tm n st f fs pre b rest e h1 h2 h3 h4 h5 h6 h7 h8 h9 h10
    exact (migrate_table_stream_err env tm n st f fs pre b rest e
      h1 h2 h3 h4 h5 h6 h7 h8 h9 h10).2

/-- Witness for C10 (amended): the characterization instantiated at a
concrete failed batch whose first row fails individually, and the
prior-batches part instantiated with an empty prior-batch list. -/
theorem spec_c10_witness :
    inserted_rows (insert_batch (pstr "t") [pstr "c"] c10_batch [pstr "Int8"] c10_oracle).2 <+:
      ((c10_batch.map (process_row [pstr "Int8"])).take 5)
    ∧ (inserted_rows (insert_batch (pstr "t") [pstr "c"] c10_batch [pstr "Int8"] c10_oracle).2).length ≤ 5 :=
  ⟨(spec_c10_amended.1 (pstr "t") [pstr "c"] c10_batch [pstr "Int8"] c10_oracle (pstr "Code: 117") rfl).1,
   (spec_c10_amended.1 (pstr "t") [pstr "c"] c10_batch [pstr "Int8"] c10_oracle (pstr "Code: 117") rfl).2.2.2⟩
